import Mathlib

/-! # The Kinesis log forwarder

A shallow embedding of `osquery/logger/plugins/aws_kinesis.cpp`:
`KinesisLogForwarder::setUp` and `KinesisLogForwarder::send`.

The forwarder object, the process-wide flags and the collaborators the code
calls into (the buffered base class, the AWS client, the host identifier and the
uuid generator) are made explicit:

* `Flags` holds the three `FLAG(...)` values of the file;
* `Env` holds what the collaborators answer;
* `KinesisLogForwarder` holds the member `partition_key_` together with the
  observable trace of the calls: the requests issued through `client_`, the
  number of uuids drawn and the lines written with `LOG(ERROR)` and `VLOG(1)`.

A `std::string` used as a log payload is a list of bytes; its `size()` and
`length()` are the length of that list.  Names and messages are Lean strings, and
`empty()` is equality with the empty string.
-/

namespace osquery

/-! ## Types declared outside the two source files -/

/-- Modelled from the spec: the class `Status` is declared in `osquery/status.h`,
which is not among the sources.  A status is a code and a message; the outcome is
Success when the code is zero and Failure(message) otherwise.  The source builds
it as `Status(code, message)` and as `Status(0)`. -/
structure Status where
  code : Int
  message : String
deriving DecidableEq

/-- The test `s.ok()` of the source: the code is zero. -/
def Status.ok (s : Status) : Bool := s.code == 0

/-- Modelled from the spec: the one-argument constructor `Status(c)` of the absent
header.  It carries the code; the message it carries is not used by any
statement below. -/
def Status.ofCode (c : Int) : Status := ⟨c, "OK"⟩

/-- A byte buffer, `Aws::Utils::ByteBuffer`, and the payload of a `std::string`. -/
abbrev ByteBuffer := List UInt8

/-- The entry type `Aws::Kinesis::Model::PutRecordsRequestEntry`, with the two
fields the source sets (`WithPartitionKey`, `WithData`). -/
structure PutRecordsRequestEntry where
  partitionKey : String
  data : ByteBuffer
deriving DecidableEq

/-- The request type `Aws::Kinesis::Model::PutRecordsRequest`, with the two fields
the source sets (`WithStreamName`, `WithRecords`). -/
structure PutRecordsRequest where
  streamName : String
  records : List PutRecordsRequestEntry
deriving DecidableEq

/-- The per-record answer `Aws::Kinesis::Model::PutRecordsResultEntry`. -/
structure PutRecordsResultEntry where
  sequenceNumber : String
  shardId : String
  errorCode : String
  errorMessage : String
deriving DecidableEq

/-- The answer `Aws::Kinesis::Model::PutRecordsResult`: `GetFailedRecordCount()`
is an `int`, `GetRecords()` a vector. -/
structure PutRecordsResult where
  failedRecordCount : Int
  records : List PutRecordsResultEntry
deriving DecidableEq

/-- The outcome `Aws::Kinesis::Model::PutRecordsOutcome`: `IsSuccess()`,
`GetResult()` and the message of `GetError()`.  The SDK builds a failed outcome
with a default-constructed result, see `PutRecordsOutcome.ofError`. -/
structure PutRecordsOutcome where
  success : Bool
  result : PutRecordsResult
  error : String
deriving DecidableEq

/-- The default-constructed `PutRecordsResult` of the SDK: no failed record, no
record. -/
def PutRecordsResult.empty : PutRecordsResult := ⟨0, []⟩

/-- The outcome the SDK builds from an error (`Outcome(const E&)`): not a success,
the result default-constructed. -/
def PutRecordsOutcome.ofError (e : String) : PutRecordsOutcome :=
  ⟨false, PutRecordsResult.empty, e⟩

/-- The outcome the SDK builds from a result (`Outcome(const R&)`). -/
def PutRecordsOutcome.ofResult (r : PutRecordsResult) : PutRecordsOutcome :=
  ⟨true, r, ""⟩

/-- The request type `Aws::Kinesis::Model::DescribeStreamRequest`, with the field
the source sets (`SetStreamName`). -/
structure DescribeStreamRequest where
  streamName : String
deriving DecidableEq

/-! ## Flags, collaborators and the forwarder -/

/-- The three `FLAG(...)` values of the file. -/
structure Flags where
  aws_kinesis_period : Nat
  aws_kinesis_stream : String
  aws_kinesis_random_partition_key : Bool

/-- The defaults the `FLAG(...)` lines give: 10, the empty string, false. -/
def Flags.default : Flags := ⟨10, "", false⟩

/-- A request issued through `client_`. -/
inductive ApiCall where
  | describeStream (r : DescribeStreamRequest)
  | putRecords (r : PutRecordsRequest)
deriving DecidableEq

/-- A line written by the logging macros of the source. -/
inductive LogLine where
  | error (text : String)
  | verbose (text : String)
deriving DecidableEq

/-- What the collaborators answer.  `putRecords n r` is the outcome of the request
`r` when `n` requests were issued through the client before it; `uuid n` is the
text of the uuid drawn when `n` uuids were drawn before it. -/
structure Env where
  baseSetUp : Status
  makeAWSClient : Status
  getHostIdentifier : String
  describeStream : Nat → DescribeStreamRequest → Bool
  putRecords : Nat → PutRecordsRequest → PutRecordsOutcome
  uuid : Nat → String

/-- The forwarder: the member `partition_key_` and the trace of what it did. -/
structure KinesisLogForwarder where
  partition_key_ : String
  calls : List ApiCall
  draws : Nat
  logged : List LogLine
deriving DecidableEq

/-- The constant `kKinesisMaxRecords`. -/
def kKinesisMaxRecords : Nat := 500

/-- The constant `kKinesisMaxLogBytes`. -/
def kKinesisMaxLogBytes : Nat := 1000000 - 256

/-! ## `KinesisLogForwarder::send` -/

/-- The first statement of `send`: in random mode a uuid is drawn and its text
stored in `partition_key_`. -/
def refreshPartitionKey (flags : Flags) (env : Env) (fw : KinesisLogForwarder) :
    KinesisLogForwarder :=
  if flags.aws_kinesis_random_partition_key then
    { fw with partition_key_ := env.uuid fw.draws, draws := fw.draws + 1 }
  else fw

/-- The body of the `for` loop over `log_data`, for one `log`: the line written
when the log is above the limit, then the entry pushed to `entries`. -/
def sendStep (key : String) (acc : List PutRecordsRequestEntry × List LogLine)
    (log : ByteBuffer) : List PutRecordsRequestEntry × List LogLine :=
  let logged :=
    if log.length > kKinesisMaxLogBytes then
      acc.2 ++ [LogLine.error "Kinesis log too big, discarding!"]
    else acc.2
  (acc.1 ++ [{ partitionKey := key, data := log }], logged)

/-- The `for` loop over `log_data`, from empty `entries`. -/
def buildEntries (key : String) (log_data : List ByteBuffer)
    (logged : List LogLine) : List PutRecordsRequestEntry × List LogLine :=
  log_data.foldl (sendStep key) ([], logged)

/-- The `for` loop over `result.GetRecords()`: the first record whose error
message is not empty ends the loop. -/
def firstError : List PutRecordsResultEntry → Option PutRecordsResultEntry
  | [] => none
  | record :: rest => if record.errorMessage ≠ "" then some record else firstError rest

/-- The line written before `send` returns a failure. -/
def failureLine (result : PutRecordsResult) (record : PutRecordsResultEntry) : LogLine :=
  LogLine.error ("Kinesis write for " ++ toString result.failedRecordCount ++ " of "
    ++ toString result.records.length ++ " records failed with error "
    ++ record.errorMessage)

/-- The line written before `send` returns a success. -/
def successLine (result : PutRecordsResult) : LogLine :=
  LogLine.verbose ("Successfully sent " ++ toString result.records.length
    ++ " logs to Kinesis.")

/-- What `send` does with `outcome.GetResult()`: the status returned and the line
written. -/
def interpretResult (result : PutRecordsResult) : Status × LogLine :=
  if result.failedRecordCount ≠ 0 then
    match firstError result.records with
    | some record => (⟨1, record.errorMessage⟩, failureLine result record)
    | none => (Status.ofCode 0, successLine result)
  else (Status.ofCode 0, successLine result)

/-- The request `send` builds for a forwarder whose key has been refreshed. -/
def sendRequest (flags : Flags) (fw : KinesisLogForwarder) (log_data : List ByteBuffer) :
    PutRecordsRequest :=
  { streamName := flags.aws_kinesis_stream
    records := (buildEntries fw.partition_key_ log_data fw.logged).1 }

/-- The method `KinesisLogForwarder::send(log_data, log_type)`, for a forwarder
whose `client_` has been constructed: the status returned and the forwarder
after the call. -/
def send (flags : Flags) (env : Env) (fw : KinesisLogForwarder)
    (log_data : List ByteBuffer) (log_type : String) : Status × KinesisLogForwarder :=
  let _ := log_type
  let fw1 := refreshPartitionKey flags env fw
  let built := buildEntries fw1.partition_key_ log_data fw1.logged
  let request : PutRecordsRequest :=
    { streamName := flags.aws_kinesis_stream, records := built.1 }
  let outcome := env.putRecords fw1.calls.length request
  let result := outcome.result
  let fw2 : KinesisLogForwarder :=
    { fw1 with calls := fw1.calls ++ [ApiCall.putRecords request], logged := built.2 }
  let r := interpretResult result
  (r.1, { fw2 with logged := fw2.logged ++ [r.2] })

/-! ## `KinesisLogForwarder::setUp` -/

/-- The method `KinesisLogForwarder::setUp()`: the status returned and the
forwarder after the call. -/
def setUp (flags : Flags) (env : Env) (fw : KinesisLogForwarder) :
    Status × KinesisLogForwarder :=
  let s := env.baseSetUp
  if !s.ok then (s, fw) else
  let s := env.makeAWSClient
  if !s.ok then (s, fw) else
  let fw1 := { fw with partition_key_ := env.getHostIdentifier }
  if flags.aws_kinesis_stream = "" then
    (⟨1, "Stream name must be specified with --aws_kinesis_stream"⟩, fw1)
  else
  let r : DescribeStreamRequest := { streamName := flags.aws_kinesis_stream }
  let success := env.describeStream fw1.calls.length r
  let fw2 := { fw1 with calls := fw1.calls ++ [ApiCall.describeStream r] }
  if !success then
    (⟨1, "Could not find Kinesis stream: " ++ flags.aws_kinesis_stream⟩, fw2)
  else
    (Status.ofCode 0,
      { fw2 with logged := fw2.logged ++
          [LogLine.verbose ("Kinesis logging initialized with stream: "
            ++ flags.aws_kinesis_stream)] })

/-- A run of `send` calls, one per element of `batches`, in order: the statuses
returned and the forwarder after the last call. -/
def sendAll (flags : Flags) (env : Env) :
    KinesisLogForwarder → List (List ByteBuffer × String) → List Status × KinesisLogForwarder
  | fw, [] => ([], fw)
  | fw, (log_data, log_type) :: rest =>
    let r := send flags env fw log_data log_type
    let rs := sendAll flags env r.2 rest
    (r.1 :: rs.1, rs.2)

/-- The put requests among a list of calls, in order. -/
def putRequests : List ApiCall → List PutRecordsRequest
  | [] => []
  | ApiCall.putRecords r :: rest => r :: putRequests rest
  | ApiCall.describeStream _ :: rest => putRequests rest

/-- The describe requests among a list of calls, in order. -/
def describeRequests : List ApiCall → List DescribeStreamRequest
  | [] => []
  | ApiCall.describeStream r :: rest => r :: describeRequests rest
  | ApiCall.putRecords _ :: rest => describeRequests rest

/-- The outcome the client hands back to a `send` call: the answer to the request
built from `log_data` under the refreshed key. -/
def sendOutcome (flags : Flags) (env : Env) (fw : KinesisLogForwarder)
    (log_data : List ByteBuffer) : PutRecordsOutcome :=
  let fw1 := refreshPartitionKey flags env fw
  env.putRecords fw1.calls.length (sendRequest flags fw1 log_data)

/-! ## Concrete collaborators and inputs used in the examples -/

/-- A backend that accepts every record of every request. -/
def acceptAll (_ : Nat) (r : PutRecordsRequest) : PutRecordsOutcome :=
  PutRecordsOutcome.ofResult
    ⟨0, r.records.map (fun _ => ⟨"49590338271490256608559692538361571095921575989136588898", "shardId-000000000000", "", ""⟩)⟩

/-- A flag set naming the stream `orders-stream`, random keys off. -/
def ordersFlags : Flags := ⟨10, "orders-stream", false⟩

/-- A flag set naming the stream `orders-stream`, random keys on. -/
def ordersRandomFlags : Flags := ⟨10, "orders-stream", true⟩

/-- Collaborators that all succeed, in front of `acceptAll`. -/
def healthyEnv : Env :=
  { baseSetUp := Status.ofCode 0
    makeAWSClient := Status.ofCode 0
    getHostIdentifier := "host-7f3a"
    describeStream := fun _ _ => true
    putRecords := acceptAll
    uuid := fun n => "uuid-" ++ toString n }

/-- A forwarder as constructed, before `setUp`. -/
def freshForwarder : KinesisLogForwarder := ⟨"", [], 0, []⟩

/-- A forwarder after a successful `setUp` against `healthyEnv`. -/
def readyForwarder : KinesisLogForwarder := (setUp ordersFlags healthyEnv freshForwarder).2

/-- A log one byte above `kKinesisMaxLogBytes`. -/
def oversizedLog : ByteBuffer := List.replicate (kKinesisMaxLogBytes + 1) 0

/-- A log of ten bytes. -/
def tenByteLog : ByteBuffer := [1, 2, 3, 4, 5, 6, 7, 8, 9, 10]

/-- Collaborators whose client cannot reach the service: every put request ends in
a failed outcome. -/
def unreachableEnv : Env :=
  { healthyEnv with putRecords := fun _ _ => PutRecordsOutcome.ofError "Unable to connect to endpoint" }

/-- An accepted record of a put result. -/
def acceptedEntry : PutRecordsResultEntry := ⟨"495903382714902566085596925383", "shardId-000000000001", "", ""⟩

/-- A rejected record of a put result. -/
def throttledEntry : PutRecordsResultEntry :=
  ⟨"", "", "ProvisionedThroughputExceededException", "ProvisionedThroughputExceededException"⟩

/-- A second rejected record of a put result. -/
def internalFailureEntry : PutRecordsResultEntry :=
  ⟨"", "", "InternalFailure", "Internal service failure."⟩

/-- A put result of five records, two of them rejected. -/
def twoOfFiveResult : PutRecordsResult :=
  ⟨2, [acceptedEntry, throttledEntry, acceptedEntry, internalFailureEntry, acceptedEntry]⟩

/-- Collaborators whose backend answers every put request with `twoOfFiveResult`. -/
def throttlingEnv : Env :=
  { healthyEnv with putRecords := fun _ _ => PutRecordsOutcome.ofResult twoOfFiveResult }

/-- A put result that counts a failed record and carries no error message. -/
def silentFailureResult : PutRecordsResult := ⟨1, [acceptedEntry, ⟨"", "", "InternalFailure", ""⟩]⟩

/-- Collaborators whose backend answers every put request with
`silentFailureResult`. -/
def silentFailureEnv : Env :=
  { healthyEnv with putRecords := fun _ _ => PutRecordsOutcome.ofResult silentFailureResult }

/-- Collaborators whose client construction fails. -/
def noClientEnv : Env :=
  { healthyEnv with makeAWSClient := ⟨1, "Invalid aws_region specified: nowhere-1"⟩ }

/-- Collaborators whose stream lookup fails. -/
def noStreamEnv : Env :=
  { healthyEnv with describeStream := fun _ _ => false }

/-! ## Lemmas on the loops -/

theorem foldl_sendStep_fst (key : String) (log_data : List ByteBuffer)
    (acc : List PutRecordsRequestEntry × List LogLine) :
    (log_data.foldl (sendStep key) acc).1
      = acc.1 ++ log_data.map (fun log => { partitionKey := key, data := log }) := by
  induction log_data generalizing acc with
  | nil => simp
  | cons log rest ih => simp [List.foldl, ih, sendStep]

theorem buildEntries_fst (key : String) (log_data : List ByteBuffer) (logged : List LogLine) :
    (buildEntries key log_data logged).1
      = log_data.map (fun log => { partitionKey := key, data := log }) := by
  simp [buildEntries, foldl_sendStep_fst]

theorem refreshPartitionKey_calls (flags : Flags) (env : Env) (fw : KinesisLogForwarder) :
    (refreshPartitionKey flags env fw).calls = fw.calls := by
  unfold refreshPartitionKey
  split <;> rfl

theorem refreshPartitionKey_off (flags : Flags) (env : Env) (fw : KinesisLogForwarder)
    (h : flags.aws_kinesis_random_partition_key = false) :
    refreshPartitionKey flags env fw = fw := by
  simp [refreshPartitionKey, h]

theorem refreshPartitionKey_on (flags : Flags) (env : Env) (fw : KinesisLogForwarder)
    (h : flags.aws_kinesis_random_partition_key = true) :
    refreshPartitionKey flags env fw
      = { fw with partition_key_ := env.uuid fw.draws, draws := fw.draws + 1 } := by
  simp [refreshPartitionKey, h]

theorem send_status (flags : Flags) (env : Env) (fw : KinesisLogForwarder)
    (log_data : List ByteBuffer) (log_type : String) :
    (send flags env fw log_data log_type).1
      = (interpretResult (sendOutcome flags env fw log_data).result).1 := rfl

theorem send_partition_key (flags : Flags) (env : Env) (fw : KinesisLogForwarder)
    (log_data : List ByteBuffer) (log_type : String) :
    (send flags env fw log_data log_type).2.partition_key_
      = (refreshPartitionKey flags env fw).partition_key_ := rfl

theorem send_draws (flags : Flags) (env : Env) (fw : KinesisLogForwarder)
    (log_data : List ByteBuffer) (log_type : String) :
    (send flags env fw log_data log_type).2.draws
      = (refreshPartitionKey flags env fw).draws := rfl

theorem send_calls (flags : Flags) (env : Env) (fw : KinesisLogForwarder)
    (log_data : List ByteBuffer) (log_type : String) :
    (send flags env fw log_data log_type).2.calls
      = fw.calls ++ [ApiCall.putRecords
          { streamName := flags.aws_kinesis_stream
            records := log_data.map (fun log =>
              { partitionKey := (refreshPartitionKey flags env fw).partition_key_
                data := log }) }] := by
  simp [send, buildEntries_fst, refreshPartitionKey_calls]

theorem firstError_none_iff (records : List PutRecordsResultEntry) :
    firstError records = none ↔ ∀ r ∈ records, r.errorMessage = "" := by
  induction records with
  | nil => simp [firstError]
  | cons record rest ih =>
    by_cases h : record.errorMessage = "" <;> simp [firstError, h, ih]

theorem firstError_append (pre post : List PutRecordsResultEntry)
    (record : PutRecordsResultEntry) (hpre : ∀ r ∈ pre, r.errorMessage = "")
    (hrecord : record.errorMessage ≠ "") :
    firstError (pre ++ record :: post) = some record := by
  induction pre with
  | nil => simp [firstError, hrecord]
  | cons r rest ih =>
    have hr : r.errorMessage = "" := hpre r (List.mem_cons_self _ _)
    have hrest : ∀ x ∈ rest, x.errorMessage = "" :=
      fun x hx => hpre x (List.mem_cons_of_mem _ hx)
    simp [firstError, hr, ih hrest]

theorem firstError_some_message (records : List PutRecordsResultEntry)
    (record : PutRecordsResultEntry) (h : firstError records = some record) :
    record ∈ records ∧ record.errorMessage ≠ "" := by
  induction records with
  | nil => simp [firstError] at h
  | cons r rest ih =>
    by_cases hr : r.errorMessage = ""
    · simp [firstError, hr] at h
      exact ⟨List.mem_cons_of_mem _ (ih h).1, (ih h).2⟩
    · simp [firstError, hr] at h
      subst h
      exact ⟨List.mem_cons_self _ _, hr⟩

theorem interpretResult_ok_iff (result : PutRecordsResult) :
    (interpretResult result).1.ok = false
      ↔ (result.failedRecordCount ≠ 0 ∧ ∃ r ∈ result.records, r.errorMessage ≠ "") := by
  unfold interpretResult
  by_cases hc : result.failedRecordCount = 0
  · simp [hc, Status.ok, Status.ofCode]
  · cases hf : firstError result.records with
    | none =>
      have := (firstError_none_iff result.records).1 hf
      simp [hc, Status.ok, Status.ofCode]
      exact this
    | some record =>
      have := firstError_some_message result.records record hf
      simp [hc, Status.ok]
      exact ⟨record, this.1, this.2⟩

theorem oversizedLog_length : oversizedLog.length = kKinesisMaxLogBytes + 1 :=
  List.length_replicate _ _

theorem send_logged (flags : Flags) (env : Env) (fw : KinesisLogForwarder)
    (log_data : List ByteBuffer) (log_type : String) :
    (send flags env fw log_data log_type).2.logged
      = (buildEntries (refreshPartitionKey flags env fw).partition_key_ log_data
            (refreshPartitionKey flags env fw).logged).2
          ++ [(interpretResult (sendOutcome flags env fw log_data).result).2] := rfl

theorem readyForwarder_eq :
    readyForwarder
      = { partition_key_ := "host-7f3a"
          calls := [ApiCall.describeStream ⟨"orders-stream"⟩]
          draws := 0
          logged := [LogLine.verbose "Kinesis logging initialized with stream: orders-stream"] } := by
  decide

theorem interpretResult_zero (result : PutRecordsResult)
    (h : result.failedRecordCount = 0) :
    (interpretResult result).1 = Status.ofCode 0 := by
  simp [interpretResult, h]

theorem describeRequests_append_put (calls : List ApiCall) (r : PutRecordsRequest) :
    describeRequests (calls ++ [ApiCall.putRecords r]) = describeRequests calls := by
  induction calls with
  | nil => rfl
  | cons c rest ih => cases c <;> simp [describeRequests, ih]

theorem putRequests_append_put (calls : List ApiCall) (r : PutRecordsRequest) :
    putRequests (calls ++ [ApiCall.putRecords r]) = putRequests calls ++ [r] := by
  induction calls with
  | nil => rfl
  | cons c rest ih => cases c <;> simp [putRequests, ih]

theorem setUp_base_failed (flags : Flags) (env : Env) (fw : KinesisLogForwarder)
    (hb : env.baseSetUp.ok = false) :
    setUp flags env fw = (env.baseSetUp, fw) := by
  simp [setUp, hb]

theorem setUp_client_failed (flags : Flags) (env : Env) (fw : KinesisLogForwarder)
    (hb : env.baseSetUp.ok = true) (hc : env.makeAWSClient.ok = false) :
    setUp flags env fw = (env.makeAWSClient, fw) := by
  simp [setUp, hb, hc]

theorem setUp_no_name (flags : Flags) (env : Env) (fw : KinesisLogForwarder)
    (hb : env.baseSetUp.ok = true) (hc : env.makeAWSClient.ok = true)
    (hn : flags.aws_kinesis_stream = "") :
    setUp flags env fw
      = (⟨1, "Stream name must be specified with --aws_kinesis_stream"⟩,
          { fw with partition_key_ := env.getHostIdentifier }) := by
  simp [setUp, hb, hc, hn]

theorem setUp_not_found (flags : Flags) (env : Env) (fw : KinesisLogForwarder)
    (hb : env.baseSetUp.ok = true) (hc : env.makeAWSClient.ok = true)
    (hn : flags.aws_kinesis_stream ≠ "")
    (hd : env.describeStream fw.calls.length ⟨flags.aws_kinesis_stream⟩ = false) :
    setUp flags env fw
      = (⟨1, "Could not find Kinesis stream: " ++ flags.aws_kinesis_stream⟩,
          { fw with
            partition_key_ := env.getHostIdentifier
            calls := fw.calls ++ [ApiCall.describeStream ⟨flags.aws_kinesis_stream⟩] }) := by
  simp [setUp, hb, hc, hn, hd]

theorem setUp_found (flags : Flags) (env : Env) (fw : KinesisLogForwarder)
    (hb : env.baseSetUp.ok = true) (hc : env.makeAWSClient.ok = true)
    (hn : flags.aws_kinesis_stream ≠ "")
    (hd : env.describeStream fw.calls.length ⟨flags.aws_kinesis_stream⟩ = true) :
    setUp flags env fw
      = (Status.ofCode 0,
          { fw with
            partition_key_ := env.getHostIdentifier
            calls := fw.calls ++ [ApiCall.describeStream ⟨flags.aws_kinesis_stream⟩]
            logged := fw.logged ++ [LogLine.verbose
              ("Kinesis logging initialized with stream: " ++ flags.aws_kinesis_stream)] }) := by
  simp [setUp, hb, hc, hn, hd]

theorem setUp_ok_partition_key (flags : Flags) (env : Env) (fw : KinesisLogForwarder)
    (hok : (setUp flags env fw).1.ok = true) :
    (setUp flags env fw).2.partition_key_ = env.getHostIdentifier := by
  cases hb : env.baseSetUp.ok with
  | false =>
    rw [setUp_base_failed flags env fw hb] at hok
    rw [hb] at hok
    exact absurd hok (by decide)
  | true =>
    cases hc : env.makeAWSClient.ok with
    | false =>
      rw [setUp_client_failed flags env fw hb hc] at hok
      rw [hc] at hok
      exact absurd hok (by decide)
    | true =>
      by_cases hn : flags.aws_kinesis_stream = ""
      · rw [setUp_no_name flags env fw hb hc hn] at hok
        simp [Status.ok] at hok
      · cases hd : env.describeStream fw.calls.length ⟨flags.aws_kinesis_stream⟩ with
        | false =>
          rw [setUp_not_found flags env fw hb hc hn hd] at hok
          simp [Status.ok] at hok
        | true => rw [setUp_found flags env fw hb hc hn hd]

theorem send_off_partition_key (flags : Flags) (env : Env) (fw : KinesisLogForwarder)
    (log_data : List ByteBuffer) (log_type : String)
    (hoff : flags.aws_kinesis_random_partition_key = false) :
    (send flags env fw log_data log_type).2.partition_key_ = fw.partition_key_ := by
  rw [send_partition_key, refreshPartitionKey_off flags env fw hoff]

theorem sendAll_off (flags : Flags) (env : Env)
    (hoff : flags.aws_kinesis_random_partition_key = false)
    (batches : List (List ByteBuffer × String)) (fw : KinesisLogForwarder) :
    (sendAll flags env fw batches).2.partition_key_ = fw.partition_key_
    ∧ (sendAll flags env fw batches).2.calls
        = fw.calls ++ batches.map (fun b => ApiCall.putRecords
            { streamName := flags.aws_kinesis_stream
              records := b.1.map (fun log =>
                { partitionKey := fw.partition_key_, data := log }) }) := by
  induction batches generalizing fw with
  | nil => simp [sendAll]
  | cons b rest ih =>
    obtain ⟨log_data, log_type⟩ := b
    have hkey := send_off_partition_key flags env fw log_data log_type hoff
    have hcalls := send_calls flags env fw log_data log_type
    rw [refreshPartitionKey_off flags env fw hoff] at hcalls
    have h := ih (send flags env fw log_data log_type).2
    rw [hkey, hcalls] at h
    simp only [sendAll]
    refine ⟨h.1, ?_⟩
    rw [h.2]
    simp

theorem putRequests_map_put (rs : List PutRecordsRequest) :
    putRequests (rs.map ApiCall.putRecords) = rs := by
  induction rs with
  | nil => rfl
  | cons r rest ih => simp [putRequests, ih]

/-! ## The claims on `send` -/

/-- C1, on the code: a record above the payload limit is not excluded.  For the
stream `orders-stream` and the single log `oversizedLog`, one byte above
`kKinesisMaxLogBytes`, `send` writes the line announcing that the log is
discarded and then submits a request whose one entry carries that log. -/
theorem send_submits_oversized_log :
    kKinesisMaxLogBytes < oversizedLog.length
    ∧ (send ordersFlags healthyEnv readyForwarder [oversizedLog] "result").2.calls
        = readyForwarder.calls
            ++ [ApiCall.putRecords ⟨"orders-stream", [⟨"host-7f3a", oversizedLog⟩]⟩]
    ∧ LogLine.error "Kinesis log too big, discarding!"
        ∈ (send ordersFlags healthyEnv readyForwarder [oversizedLog] "result").2.logged := by
  refine ⟨?_, ?_, ?_⟩
  · rw [oversizedLog_length]; exact Nat.lt_succ_self _
  · rw [send_calls, refreshPartitionKey_off _ _ _ rfl, readyForwarder_eq]
    rfl
  · rw [send_logged, refreshPartitionKey_off _ _ _ rfl]
    have hbig : kKinesisMaxLogBytes < oversizedLog.length := by
      rw [oversizedLog_length]; exact Nat.lt_succ_self _
    simp [buildEntries, sendStep, hbig]

/-- C2: when the result the backend hands back counts at least one failed record
and its records are `pre ++ record :: post`, where no record of `pre` has an error
message and `record` has one, `send` returns the status with code 1 and the error
message of `record`, whatever the records of `pre` and `post` are. -/
theorem send_failure_carries_first_error (flags : Flags) (env : Env)
    (fw : KinesisLogForwarder) (log_data : List ByteBuffer) (log_type : String)
    (pre post : List PutRecordsResultEntry) (record : PutRecordsResultEntry)
    (hcount : (sendOutcome flags env fw log_data).result.failedRecordCount ≠ 0)
    (hrecords : (sendOutcome flags env fw log_data).result.records = pre ++ record :: post)
    (hpre : ∀ r ∈ pre, r.errorMessage = "")
    (hrecord : record.errorMessage ≠ "") :
    (send flags env fw log_data log_type).1 = ⟨1, record.errorMessage⟩ := by
  rw [send_status]
  unfold interpretResult
  rw [if_pos hcount, hrecords, firstError_append pre post record hpre hrecord]

/-- Witness of C2: two failed records of five, the first error message being
`ProvisionedThroughputExceededException`. -/
theorem send_failure_carries_first_error_witness :
    ((sendOutcome ordersFlags throttlingEnv readyForwarder
        [tenByteLog, tenByteLog, tenByteLog, tenByteLog, tenByteLog]).result.failedRecordCount ≠ 0
      ∧ (sendOutcome ordersFlags throttlingEnv readyForwarder
          [tenByteLog, tenByteLog, tenByteLog, tenByteLog, tenByteLog]).result.records
          = [acceptedEntry] ++ throttledEntry :: [acceptedEntry, internalFailureEntry, acceptedEntry]
      ∧ (∀ r ∈ [acceptedEntry], r.errorMessage = "")
      ∧ throttledEntry.errorMessage ≠ "")
    ∧ (send ordersFlags throttlingEnv readyForwarder
        [tenByteLog, tenByteLog, tenByteLog, tenByteLog, tenByteLog] "result").1
        = ⟨1, "ProvisionedThroughputExceededException"⟩ :=
  ⟨⟨by decide, rfl, by decide, by decide⟩,
    send_failure_carries_first_error ordersFlags throttlingEnv readyForwarder
      [tenByteLog, tenByteLog, tenByteLog, tenByteLog, tenByteLog] "result"
      [acceptedEntry] [acceptedEntry, internalFailureEntry, acceptedEntry] throttledEntry
      (by decide) rfl (by decide) (by decide)⟩

/-- C3, on the code: a failed outcome is reported as a success.  With a client
whose every put request ends in the failed outcome the SDK builds from an error,
`send` returns a status with code 0. -/
theorem send_transport_failure_returns_success :
    (sendOutcome ordersFlags unreachableEnv readyForwarder [tenByteLog]).success = false
    ∧ (sendOutcome ordersFlags unreachableEnv readyForwarder [tenByteLog]).error
        = "Unable to connect to endpoint"
    ∧ (send ordersFlags unreachableEnv readyForwarder [tenByteLog] "result").1.code = 0
    ∧ (send ordersFlags unreachableEnv readyForwarder [tenByteLog] "result").1.ok = true := by
  refine ⟨rfl, rfl, ?_, ?_⟩ <;> decide

/-- C4: when the result the backend hands back counts no failed record, `send`
returns the success status, of code 0, whatever the error messages of the
records in that result are. -/
theorem send_success_on_zero_failed (flags : Flags) (env : Env)
    (fw : KinesisLogForwarder) (log_data : List ByteBuffer) (log_type : String)
    (hcount : (sendOutcome flags env fw log_data).result.failedRecordCount = 0) :
    (send flags env fw log_data log_type).1 = Status.ofCode 0
    ∧ (send flags env fw log_data log_type).1.code = 0
    ∧ (send flags env fw log_data log_type).1.ok = true := by
  have h := interpretResult_zero _ hcount
  rw [send_status, h]
  exact ⟨rfl, rfl, rfl⟩

/-- Witness of C4: one record of ten bytes, accepted by the backend. -/
theorem send_success_on_zero_failed_witness :
    (sendOutcome ordersFlags healthyEnv readyForwarder [tenByteLog]).result.failedRecordCount = 0
    ∧ (send ordersFlags healthyEnv readyForwarder [tenByteLog] "result").1 = Status.ofCode 0
    ∧ (send ordersFlags healthyEnv readyForwarder [tenByteLog] "result").1.code = 0
    ∧ (send ordersFlags healthyEnv readyForwarder [tenByteLog] "result").1.ok = true :=
  ⟨rfl, send_success_on_zero_failed ordersFlags healthyEnv readyForwarder [tenByteLog]
    "result" rfl⟩

/-- C10: when the result the backend hands back counts failed records and none of
its records has an error message (also when it has no record), `send` returns the
success status, of code 0; and `send` returns a failure exactly when the failed
count is not zero and some record of the result has an error message. -/
theorem send_failure_iff (flags : Flags) (env : Env)
    (fw : KinesisLogForwarder) (log_data : List ByteBuffer) (log_type : String) :
    ((sendOutcome flags env fw log_data).result.failedRecordCount ≠ 0 →
      (∀ r ∈ (sendOutcome flags env fw log_data).result.records, r.errorMessage = "") →
        (send flags env fw log_data log_type).1 = Status.ofCode 0)
    ∧ ((send flags env fw log_data log_type).1.ok = false
        ↔ ((sendOutcome flags env fw log_data).result.failedRecordCount ≠ 0
            ∧ ∃ r ∈ (sendOutcome flags env fw log_data).result.records, r.errorMessage ≠ "")) := by
  refine ⟨?_, ?_⟩
  · intro hcount hempty
    rw [send_status]
    unfold interpretResult
    rw [if_pos hcount, (firstError_none_iff _).2 hempty]
  · rw [send_status]
    exact interpretResult_ok_iff _

/-- Witness of C10: a result that counts one failed record and carries no error
message. -/
theorem send_failure_iff_witness :
    ((sendOutcome ordersFlags silentFailureEnv readyForwarder
        [tenByteLog, tenByteLog]).result.failedRecordCount ≠ 0
      ∧ ∀ r ∈ (sendOutcome ordersFlags silentFailureEnv readyForwarder
          [tenByteLog, tenByteLog]).result.records, r.errorMessage = "")
    ∧ (send ordersFlags silentFailureEnv readyForwarder [tenByteLog, tenByteLog] "result").1
        = Status.ofCode 0 :=
  ⟨⟨by decide, by decide⟩,
    (send_failure_iff ordersFlags silentFailureEnv readyForwarder [tenByteLog, tenByteLog]
      "result").1 (by decide) (by decide)⟩

/-- C6: when every record of the input is within the payload limit, whatever the
length of the input, `send` issues exactly one request through the client, a put
request to the configured stream whose entries are as many as the input records
and carry, entry by entry and in input order, exactly the bytes of the records. -/
theorem send_single_request_in_order (flags : Flags) (env : Env)
    (fw : KinesisLogForwarder) (log_data : List ByteBuffer) (log_type : String)
    (_hsize : ∀ log ∈ log_data, log.length ≤ kKinesisMaxLogBytes) :
    (send flags env fw log_data log_type).2.calls
        = fw.calls ++ [ApiCall.putRecords
            (sendRequest flags (refreshPartitionKey flags env fw) log_data)]
    ∧ (sendRequest flags (refreshPartitionKey flags env fw) log_data).streamName
        = flags.aws_kinesis_stream
    ∧ (sendRequest flags (refreshPartitionKey flags env fw) log_data).records.length
        = log_data.length
    ∧ (sendRequest flags (refreshPartitionKey flags env fw) log_data).records.map
        PutRecordsRequestEntry.data = log_data
    ∧ ∀ i : Nat, ((sendRequest flags (refreshPartitionKey flags env fw) log_data).records[i]?).map
        PutRecordsRequestEntry.data = log_data[i]? := by
  have hrec : (sendRequest flags (refreshPartitionKey flags env fw) log_data).records
      = log_data.map (fun log =>
          { partitionKey := (refreshPartitionKey flags env fw).partition_key_, data := log }) := by
    simp [sendRequest, buildEntries_fst]
  refine ⟨?_, rfl, ?_, ?_, ?_⟩
  · rw [send_calls]
    simp [sendRequest, buildEntries_fst]
  · rw [hrec, List.length_map]
  · rw [hrec, List.map_map]
    exact List.map_id _
  · intro i
    rw [hrec, List.getElem?_map, Option.map_map]
    cases log_data[i]? <;> rfl

/-- Witness of C6: an input of 501 records of ten bytes, one more than
`kKinesisMaxRecords`. -/
theorem send_single_request_in_order_witness :
    (kKinesisMaxRecords < (List.replicate 501 tenByteLog).length
      ∧ ∀ log ∈ List.replicate 501 tenByteLog, log.length ≤ kKinesisMaxLogBytes)
    ∧ (send ordersFlags healthyEnv readyForwarder (List.replicate 501 tenByteLog) "result").2.calls
        = readyForwarder.calls ++ [ApiCall.putRecords
            (sendRequest ordersFlags (refreshPartitionKey ordersFlags healthyEnv readyForwarder)
              (List.replicate 501 tenByteLog))]
    ∧ (sendRequest ordersFlags (refreshPartitionKey ordersFlags healthyEnv readyForwarder)
        (List.replicate 501 tenByteLog)).records.length = 501 :=
  have hsize : ∀ log ∈ List.replicate 501 tenByteLog, log.length ≤ kKinesisMaxLogBytes := by
    intro log hlog
    rw [List.eq_of_mem_replicate hlog]
    decide
  have h := send_single_request_in_order ordersFlags healthyEnv readyForwarder
    (List.replicate 501 tenByteLog) "result" hsize
  ⟨⟨by rw [List.length_replicate]; decide, hsize⟩, h.1,
    by rw [h.2.2.1, List.length_replicate]⟩

/-! ## The claims on the partition key -/

/-- C7: with random keys off, after a `setUp` that succeeded the cached key is the
host identifier; after any run of `send` calls it still is, the run issued one put
request per call, and every entry of every one of these requests carries the host
identifier as its partition key.  Each single `send` leaves the cached key as it
found it. -/
theorem stable_partition_key (flags : Flags) (env : Env) (fw : KinesisLogForwarder)
    (batches : List (List ByteBuffer × String))
    (hoff : flags.aws_kinesis_random_partition_key = false)
    (hsetup : (setUp flags env fw).1.ok = true) :
    (setUp flags env fw).2.partition_key_ = env.getHostIdentifier
    ∧ (sendAll flags env (setUp flags env fw).2 batches).2.partition_key_
        = env.getHostIdentifier
    ∧ (putRequests ((sendAll flags env (setUp flags env fw).2 batches).2.calls.drop
        (setUp flags env fw).2.calls.length)).length = batches.length
    ∧ (∀ request ∈ putRequests ((sendAll flags env (setUp flags env fw).2 batches).2.calls.drop
          (setUp flags env fw).2.calls.length),
        ∀ entry ∈ request.records, entry.partitionKey = env.getHostIdentifier)
    ∧ ∀ (fw1 : KinesisLogForwarder) (log_data : List ByteBuffer) (log_type : String),
        (send flags env fw1 log_data log_type).2.partition_key_ = fw1.partition_key_ := by
  have hkey := setUp_ok_partition_key flags env fw hsetup
  have hall := sendAll_off flags env hoff batches (setUp flags env fw).2
  rw [hkey] at hall
  have hdrop : putRequests ((sendAll flags env (setUp flags env fw).2 batches).2.calls.drop
        (setUp flags env fw).2.calls.length)
      = batches.map (fun b =>
          ({ streamName := flags.aws_kinesis_stream
             records := b.1.map (fun log =>
              { partitionKey := env.getHostIdentifier, data := log }) } : PutRecordsRequest)) := by
    rw [hall.2, List.drop_left]
    rw [← putRequests_map_put (batches.map _), List.map_map]
    rfl
  refine ⟨hkey, hall.1, ?_, ?_, ?_⟩
  · rw [hdrop, List.length_map]
  · intro request hrequest entry hentry
    rw [hdrop, List.mem_map] at hrequest
    obtain ⟨b, _, rfl⟩ := hrequest
    simp only [List.mem_map] at hentry
    obtain ⟨log, _, rfl⟩ := hentry
    rfl
  · intro fw1 log_data log_type
    exact send_off_partition_key flags env fw1 log_data log_type hoff

/-- Witness of C7: two `send` calls after a `setUp` against collaborators that all
succeed. -/
theorem stable_partition_key_witness :
    (ordersFlags.aws_kinesis_random_partition_key = false
      ∧ (setUp ordersFlags healthyEnv freshForwarder).1.ok = true)
    ∧ (sendAll ordersFlags healthyEnv (setUp ordersFlags healthyEnv freshForwarder).2
        [([tenByteLog], "result"), ([tenByteLog, tenByteLog], "status")]).2.partition_key_
        = "host-7f3a"
    ∧ (∀ request ∈ putRequests ((sendAll ordersFlags healthyEnv
          (setUp ordersFlags healthyEnv freshForwarder).2
          [([tenByteLog], "result"), ([tenByteLog, tenByteLog], "status")]).2.calls.drop
          (setUp ordersFlags healthyEnv freshForwarder).2.calls.length),
        ∀ entry ∈ request.records, entry.partitionKey = "host-7f3a") :=
  have h := stable_partition_key ordersFlags healthyEnv freshForwarder
    [([tenByteLog], "result"), ([tenByteLog, tenByteLog], "status")] rfl (by decide)
  ⟨⟨rfl, by decide⟩, h.2.1, h.2.2.2.1⟩

/-- C9: with random keys on, a `send` call draws exactly one uuid; the cached key
after the call is the text of that uuid, whatever it was before; the call issues
one put request, and every entry of it carries that same text as its partition
key. -/
theorem random_partition_key_once_per_batch (flags : Flags) (env : Env)
    (fw : KinesisLogForwarder) (log_data : List ByteBuffer) (log_type : String)
    (hon : flags.aws_kinesis_random_partition_key = true) :
    (send flags env fw log_data log_type).2.draws = fw.draws + 1
    ∧ (send flags env fw log_data log_type).2.partition_key_ = env.uuid fw.draws
    ∧ (send flags env fw log_data log_type).2.calls
        = fw.calls ++ [ApiCall.putRecords
            { streamName := flags.aws_kinesis_stream
              records := log_data.map (fun log =>
                { partitionKey := env.uuid fw.draws, data := log }) }]
    ∧ ∀ request ∈ putRequests ((send flags env fw log_data log_type).2.calls.drop
          fw.calls.length),
        ∀ entry ∈ request.records, entry.partitionKey = env.uuid fw.draws := by
  have hcalls := send_calls flags env fw log_data log_type
  rw [refreshPartitionKey_on flags env fw hon] at hcalls
  refine ⟨?_, ?_, hcalls, ?_⟩
  · rw [send_draws, refreshPartitionKey_on flags env fw hon]
  · rw [send_partition_key, refreshPartitionKey_on flags env fw hon]
  · intro request hrequest entry hentry
    rw [hcalls, List.drop_left] at hrequest
    simp only [putRequests, List.mem_singleton] at hrequest
    subst hrequest
    simp only [List.mem_map] at hentry
    obtain ⟨log, _, rfl⟩ := hentry
    rfl

/-- Witness of C9: a `send` of two records by a forwarder whose cached key is the
host identifier. -/
theorem random_partition_key_once_per_batch_witness :
    ordersRandomFlags.aws_kinesis_random_partition_key = true
    ∧ (send ordersRandomFlags healthyEnv readyForwarder [tenByteLog, tenByteLog] "result").2.draws
        = 1
    ∧ (send ordersRandomFlags healthyEnv readyForwarder
        [tenByteLog, tenByteLog] "result").2.partition_key_ = "uuid-0"
    ∧ (send ordersRandomFlags healthyEnv readyForwarder [tenByteLog, tenByteLog] "result").2.calls
        = readyForwarder.calls ++ [ApiCall.putRecords
            ⟨"orders-stream", [⟨"uuid-0", tenByteLog⟩, ⟨"uuid-0", tenByteLog⟩]⟩] :=
  have h := random_partition_key_once_per_batch ordersRandomFlags healthyEnv readyForwarder
    [tenByteLog, tenByteLog] "result" rfl
  ⟨rfl, h.1, by rw [h.2.1]; decide, by rw [h.2.2.1]; decide⟩

/-! ## The claims on `setUp` -/

/-- C5, as stated, fails: with the empty stream name and a client construction
that fails, `setUp` returns the status of the client construction, not the
configuration error. -/
theorem setUp_empty_stream_name_other_error :
    Flags.default.aws_kinesis_stream = ""
    ∧ (setUp Flags.default noClientEnv freshForwarder).1
        = ⟨1, "Invalid aws_region specified: nowhere-1"⟩
    ∧ (setUp Flags.default noClientEnv freshForwarder).1
        ≠ ⟨1, "Stream name must be specified with --aws_kinesis_stream"⟩ := by
  refine ⟨rfl, ?_, ?_⟩ <;> decide

/-- C5, amended: with the empty stream name `setUp` always returns a failure and
issues no request through the client; the failure is the configuration error when
the base set-up and the client construction succeed, and otherwise the status of
the one of the two that failed first. -/
theorem setUp_empty_stream_name_fails (flags : Flags) (env : Env)
    (fw : KinesisLogForwarder) (hempty : flags.aws_kinesis_stream = "") :
    (setUp flags env fw).1.ok = false
    ∧ (setUp flags env fw).2.calls = fw.calls
    ∧ (env.baseSetUp.ok = true → env.makeAWSClient.ok = true →
        (setUp flags env fw).1
          = ⟨1, "Stream name must be specified with --aws_kinesis_stream"⟩)
    ∧ (env.baseSetUp.ok = false → (setUp flags env fw).1 = env.baseSetUp)
    ∧ (env.baseSetUp.ok = true → env.makeAWSClient.ok = false →
        (setUp flags env fw).1 = env.makeAWSClient) := by
  cases hb : env.baseSetUp.ok with
  | false =>
    rw [setUp_base_failed flags env fw hb]
    exact ⟨hb, rfl, fun h => absurd h (by decide), fun _ => rfl, fun h => absurd h (by decide)⟩
  | true =>
    cases hc : env.makeAWSClient.ok with
    | false =>
      rw [setUp_client_failed flags env fw hb hc]
      exact ⟨hc, rfl, fun _ h => absurd h (by decide), fun h => absurd h (by decide),
        fun _ _ => rfl⟩
    | true =>
      rw [setUp_no_name flags env fw hb hc hempty]
      exact ⟨rfl, rfl, fun _ _ => rfl, fun h => absurd h (by decide),
        fun _ h => absurd h (by decide)⟩

/-- Witness of C5, amended: the default flags, whose stream name is empty. -/
theorem setUp_empty_stream_name_fails_witness :
    Flags.default.aws_kinesis_stream = ""
    ∧ (setUp Flags.default healthyEnv freshForwarder).1.ok = false
    ∧ (setUp Flags.default healthyEnv freshForwarder).2.calls = freshForwarder.calls
    ∧ (setUp Flags.default healthyEnv freshForwarder).1
        = ⟨1, "Stream name must be specified with --aws_kinesis_stream"⟩ :=
  have h := setUp_empty_stream_name_fails Flags.default healthyEnv freshForwarder rfl
  ⟨rfl, h.1, h.2.1, h.2.2.1 (by decide) (by decide)⟩

/-- C8: with a stream name that is not empty, and the base set-up and the client
construction succeeding, `setUp` issues one describe request for that name; it
returns the success status exactly when that request succeeds, and otherwise the
failure whose message is `Could not find Kinesis stream: ` followed by the name.
A `send` call adds no describe request to the requests issued. -/
theorem setUp_reachability_check (flags : Flags) (env : Env) (fw : KinesisLogForwarder)
    (hname : flags.aws_kinesis_stream ≠ "")
    (hbase : env.baseSetUp.ok = true) (hclient : env.makeAWSClient.ok = true) :
    ((setUp flags env fw).1.ok = true
        ↔ env.describeStream fw.calls.length ⟨flags.aws_kinesis_stream⟩ = true)
    ∧ (env.describeStream fw.calls.length ⟨flags.aws_kinesis_stream⟩ = true →
        (setUp flags env fw).1 = Status.ofCode 0)
    ∧ (env.describeStream fw.calls.length ⟨flags.aws_kinesis_stream⟩ = false →
        (setUp flags env fw).1
          = ⟨1, "Could not find Kinesis stream: " ++ flags.aws_kinesis_stream⟩)
    ∧ (setUp flags env fw).2.calls
        = fw.calls ++ [ApiCall.describeStream ⟨flags.aws_kinesis_stream⟩]
    ∧ ∀ (fw1 : KinesisLogForwarder) (log_data : List ByteBuffer) (log_type : String),
        describeRequests (send flags env fw1 log_data log_type).2.calls
          = describeRequests fw1.calls := by
  have hsend : ∀ (fw1 : KinesisLogForwarder) (log_data : List ByteBuffer) (log_type : String),
      describeRequests (send flags env fw1 log_data log_type).2.calls
        = describeRequests fw1.calls := by
    intro fw1 log_data log_type
    rw [send_calls, describeRequests_append_put]
  cases hd : env.describeStream fw.calls.length ⟨flags.aws_kinesis_stream⟩ with
  | false =>
    rw [setUp_not_found flags env fw hbase hclient hname hd]
    exact ⟨⟨fun h => absurd h (by simp [Status.ok]), fun h => absurd h (by decide)⟩,
      fun h => absurd h (by decide), fun _ => rfl, rfl, hsend⟩
  | true =>
    rw [setUp_found flags env fw hbase hclient hname hd]
    exact ⟨⟨fun _ => rfl, fun _ => rfl⟩, fun _ => rfl, fun h => absurd h (by decide), rfl,
      hsend⟩

/-- Witness of C8: the stream `orders-stream` and a lookup that fails. -/
theorem setUp_reachability_check_witness :
    (ordersFlags.aws_kinesis_stream ≠ ""
      ∧ noStreamEnv.baseSetUp.ok = true ∧ noStreamEnv.makeAWSClient.ok = true)
    ∧ (setUp ordersFlags noStreamEnv freshForwarder).1
        = ⟨1, "Could not find Kinesis stream: orders-stream"⟩
    ∧ (setUp ordersFlags noStreamEnv freshForwarder).2.calls
        = [ApiCall.describeStream ⟨"orders-stream"⟩] :=
  have h := setUp_reachability_check ordersFlags noStreamEnv freshForwarder
    (by decide) (by decide) (by decide)
  ⟨⟨by decide, by decide, by decide⟩, by rw [h.2.2.1 rfl]; decide, by rw [h.2.2.2.1]; decide⟩

end osquery
